import Mathlib

/-!
Shallow embedding of the GreenMRV satellite verification engine
(`src/services/satelliteVerification.ts`) and proofs of the specified
properties.

JavaScript numbers are modelled as rationals (ℚ). `Math.random()` draws
are modelled as explicit parameters collected in a `Rand` record, one
field per call site, each intended to lie in `[0, 1)`. `x.toFixed(d)`
(decimal rounding, ties away from zero for the positive values arising
here) is modelled by `roundTo d`, and `Math.round` by Mathlib's `round`
(both round half up, which agrees on the nonnegative values produced by
this program). The ambient clock (`new Date().toISOString()`) is an
explicit `now : String` argument.
-/

namespace GreenMRV

/-- `FarmerData.practices` from the source: the four practice strings. -/
structure Practices where
  fertilizer : String
  irrigation : String
  seedType : String
  soilHealth : String
deriving Repr, DecidableEq

/-- `FarmerData` interface from the source. `landArea` is a JS number. -/
structure FarmerData where
  cropType : String
  landArea : ℚ
  location : String
  practices : Practices
deriving Repr, DecidableEq

/-- `NDVIData` interface from the source. -/
structure NDVIData where
  value : ℚ
  change : ℚ
  healthScore : ℤ
  date : String
deriving Repr, DecidableEq

/-- The `landAreaVerification` block of the result. -/
structure LandAreaVerification where
  reportedArea : ℚ
  satelliteDetectedArea : ℚ
  accuracy : ℚ
deriving Repr, DecidableEq

/-- The `vegetationAnalysis` block of the result. -/
structure VegetationAnalysis where
  cropType : String
  healthStatus : String
  sequestrationRate : ℚ
deriving Repr, DecidableEq

/-- `SatelliteVerificationResult` interface from the source. -/
structure SatelliteVerificationResult where
  isVerified : Bool
  confidence : ℤ
  ndviData : NDVIData
  landAreaVerification : LandAreaVerification
  vegetationAnalysis : VegetationAnalysis
  source : String
  imageResolution : ℚ
  cloudCoverage : ℚ
  verificationDate : String
deriving Repr, DecidableEq

/-- The five `Math.random()` call sites of `verifySatelliteData`, in
source order, as explicit injected randomness.  Each field is meant to
lie in `[0, 1)`. -/
structure Rand where
  seasonal : ℚ
  previous : ℚ
  areaFactor : ℚ
  sourcePick : ℚ
  cloud : ℚ
deriving Repr, DecidableEq

/-- `x.toFixed(d)` converted back to a number: decimal rounding to `d`
digits. -/
def roundTo (d : ℕ) (x : ℚ) : ℚ :=
  (round (x * 10 ^ d) : ℤ) / 10 ^ d

/-- The `CROP_NDVI_BASELINE` table: crop type ↦ (baseline, variance). -/
def CROP_NDVI_BASELINE (crop : String) : Option (ℚ × ℚ) :=
  match crop with
  | "Rice" => some (75/100, 15/100)
  | "Wheat" => some (70/100, 12/100)
  | "Maize" => some (78/100, 14/100)
  | "Sugarcane" => some (82/100, 10/100)
  | "Cotton" => some (68/100, 16/100)
  | "Agroforestry" => some (85/100, 8/100)
  | "Organic Vegetables" => some (72/100, 13/100)
  | "Millets" => some (65/100, 18/100)
  | "Pulses" => some (67/100, 15/100)
  | "Soybean" => some (71/100, 14/100)
  | _ => none

/-- The `SEQUESTRATION_RATES` table: crop type ↦ base rate. -/
def SEQUESTRATION_RATES (crop : String) : Option ℚ :=
  match crop with
  | "Agroforestry" => some (25/10)
  | "Rice" => some (12/10)
  | "Organic Vegetables" => some (18/10)
  | "Wheat" => some 1
  | "Maize" => some (11/10)
  | "Sugarcane" => some (14/10)
  | "Cotton" => some (9/10)
  | "Pulses" => some (16/10)
  | "Millets" => some (13/10)
  | "Soybean" => some (15/10)
  | _ => none

/-- `this.CROP_NDVI_BASELINE[cropType] || this.CROP_NDVI_BASELINE['Rice']`:
lookup with fallback to the `'Rice'` entry. -/
def cropConfig (crop : String) : ℚ × ℚ :=
  (CROP_NDVI_BASELINE crop).getD ((CROP_NDVI_BASELINE "Rice").getD (0, 0))

/-- The fertilizer `switch` block of `calculatePracticeBonus`, cases in
source order; the fall-through default adds nothing. -/
def fertilizerSwitch (s : String) : ℚ :=
  match s with
  | "Organic Manure" => 8/100
  | "Bio-fertilizer" => 6/100
  | "Compost" => 7/100
  | "Green Manure" => 5/100
  | "Reduced Chemical" => 2/100
  | _ => 0

/-- The irrigation `switch` block of `calculatePracticeBonus`. -/
def irrigationSwitch (s : String) : ℚ :=
  match s with
  | "Drip Irrigation" => 5/100
  | "Sprinkler" => 3/100
  | "Alternate Wetting/Drying" => 4/100
  | "Rainwater Harvesting" => 6/100
  | _ => 0

/-- The seed-type `switch` block of `calculatePracticeBonus`. -/
def seedTypeSwitch (s : String) : ℚ :=
  match s with
  | "Drought Resistant" => 4/100
  | "Organic Seeds" => 3/100
  | "High Yield Variety" => 2/100
  | _ => 0

/-- The soil-health `switch` block of `calculatePracticeBonus`; its
`default` clause subtracts `0.02`. -/
def soilHealthSwitch (s : String) : ℚ :=
  match s with
  | "Excellent" => 6/100
  | "Good" => 4/100
  | "Average" => 2/100
  | _ => -(2/100)

/-- `calculatePracticeBonus` from the source: a mutable accumulator
updated by four `switch` statements, one per practice field. -/
def calculatePracticeBonus (p : Practices) : ℚ :=
  let bonus : ℚ := 0
  let bonus := bonus + fertilizerSwitch p.fertilizer
  let bonus := bonus + irrigationSwitch p.irrigation
  let bonus := bonus + seedTypeSwitch p.seedType
  let bonus := bonus + soilHealthSwitch p.soilHealth
  bonus

/-- `currentNDVI` of `verifySatelliteData`:
`Math.max(0.1, Math.min(0.95, baseNDVI + practiceBonus + seasonalVariation))`
with `seasonalVariation = (Math.random() - 0.5) * 0.1`. -/
def currentNDVI (d : FarmerData) (r : Rand) : ℚ :=
  max (1/10) (min (95/100)
    ((cropConfig d.cropType).1 + calculatePracticeBonus d.practices
      + (r.seasonal - 1/2) * (1/10)))

/-- `accuracyFactor = 0.95 + Math.random() * 0.10`. -/
def accuracyFactor (r : Rand) : ℚ :=
  95/100 + r.areaFactor * (10/100)

/-- `satelliteArea = farmerData.landArea * accuracyFactor`. -/
def satelliteArea (d : FarmerData) (r : Rand) : ℚ :=
  d.landArea * accuracyFactor r

/-- `areaAccuracy = Math.min(100, (1 - |satelliteArea - landArea| / landArea) * 100)`. -/
def areaAccuracy (d : FarmerData) (r : Rand) : ℚ :=
  min 100 ((1 - |satelliteArea d r - d.landArea| / d.landArea) * 100)

/-- `ndviConfidence = Math.min(100, (currentNDVI / 0.85) * 60)`. -/
def ndviConfidence (d : FarmerData) (r : Rand) : ℚ :=
  min 100 (currentNDVI d r / (85/100) * 60)

/-- `areaConfidence = areaAccuracy * 0.4`. -/
def areaConfidence (d : FarmerData) (r : Rand) : ℚ :=
  areaAccuracy d r * (4/10)

/-- `verifySatelliteData` from the source, with randomness `r`, the
timestamp `now` and no simulated API delay (the `setTimeout` only
pauses).  The function has no validation or failure path: it returns a
result for every input. -/
def verifySatelliteData (d : FarmerData) (r : Rand) (now : String) :
    SatelliteVerificationResult :=
  let baseNDVI := (cropConfig d.cropType).1
  let ndvi := currentNDVI d r
  let previousNDVI := baseNDVI * (85/100 + r.previous * (15/100))
  let ndviChange := ndvi - previousNDVI
  let areaAcc := areaAccuracy d r
  let isHealthyVegetation := decide (ndvi ≥ 65/100)
  let isAreaAccurate := decide (areaAcc ≥ 90)
  let isVerified := isHealthyVegetation && isAreaAccurate
  let confidence := round (ndviConfidence d r + areaConfidence d r)
  let healthStatus :=
    if ndvi ≥ 80/100 then "Excellent"
    else if ndvi ≥ 65/100 then "Good"
    else if ndvi ≥ 45/100 then "Moderate"
    else "Poor"
  let baseSequestration := (SEQUESTRATION_RATES d.cropType).getD 1
  let healthMultiplier : ℚ :=
    if ndvi ≥ 75/100 then 12/10 else if ndvi ≥ 60/100 then 1 else 8/10
  let sequestrationRate := baseSequestration * healthMultiplier * d.landArea
  let source :=
    (["Sentinel-2 ESA", "Landsat-8 NASA"].getD (r.sourcePick * 2).floor.toNat "")
  let imageResolution : ℚ := if source = "Sentinel-2 ESA" then 10 else 30
  let cloudCoverage := r.cloud * 15
  { isVerified := isVerified
    confidence := confidence
    ndviData :=
      { value := roundTo 3 ndvi
        change := roundTo 3 ndviChange
        healthScore := round (ndvi / (95/100) * 100)
        date := now }
    landAreaVerification :=
      { reportedArea := d.landArea
        satelliteDetectedArea := roundTo 2 (satelliteArea d r)
        accuracy := roundTo 1 areaAcc }
    vegetationAnalysis :=
      { cropType := d.cropType
        healthStatus := healthStatus
        sequestrationRate := roundTo 2 sequestrationRate }
    source := source
    imageResolution := imageResolution
    cloudCoverage := roundTo 1 cloudCoverage
    verificationDate := now }

/-- The ambient formatting environment of `getVerificationSummary`:
JavaScript number-to-string conversion for the interpolated numeric
fields and `new Date(s).toLocaleDateString()` (which depends on the
host locale and time zone).  The source reads these from the runtime;
the embedding passes them explicitly. -/
structure FormatEnv where
  numStr : ℚ → String
  intStr : ℤ → String
  dateLocale : String → String

/-- `getVerificationSummary` from the source: the template literal,
interpolations rendered through the formatting environment, followed by
`.trim()`. -/
def getVerificationSummary (env : FormatEnv)
    (result : SatelliteVerificationResult) : String :=
  let ndviData := result.ndviData
  let landAreaVerification := result.landAreaVerification
  let vegetationAnalysis := result.vegetationAnalysis
  let confidence := result.confidence
  ("\nSatellite Verification Summary:\n"
    ++ "━━━━━━━━━━━━━━━━━━━━━━━━━━━━━━\n\n"
    ++ "✅ Verification Status: "
    ++ (if result.isVerified then "VERIFIED" else "PENDING REVIEW") ++ "\n"
    ++ "🎯 Confidence Score: " ++ env.intStr confidence ++ "%\n"
    ++ "📡 Source: " ++ result.source ++ "\n\n"
    ++ "🌱 Vegetation Health Analysis:\n"
    ++ "   • NDVI Value: " ++ env.numStr ndviData.value ++ " ("
    ++ (if ndviData.change > 0 then "+" else "")
    ++ env.numStr ndviData.change ++ ")\n"
    ++ "   • Health Score: " ++ env.intStr ndviData.healthScore ++ "/100\n"
    ++ "   • Status: " ++ vegetationAnalysis.healthStatus ++ "\n"
    ++ "   • Crop Type: " ++ vegetationAnalysis.cropType ++ "\n\n"
    ++ "📏 Land Area Verification:\n"
    ++ "   • Reported: " ++ env.numStr landAreaVerification.reportedArea
    ++ " acres\n"
    ++ "   • Satellite Detected: "
    ++ env.numStr landAreaVerification.satelliteDetectedArea ++ " acres\n"
    ++ "   • Accuracy: " ++ env.numStr landAreaVerification.accuracy ++ "%\n\n"
    ++ "🌿 Carbon Sequestration:\n"
    ++ "   • Estimated Rate: "
    ++ env.numStr vegetationAnalysis.sequestrationRate ++ " tCO₂/year\n"
    ++ "   • Based on " ++ result.source ++ " imagery at "
    ++ env.numStr result.imageResolution ++ "m resolution\n"
    ++ "   • Cloud Coverage: " ++ env.numStr result.cloudCoverage ++ "%\n\n"
    ++ "Verified on: " ++ env.dateLocale result.verificationDate
    ++ "\n    ").trim

/-! ### Spec-side definitions
These restate rules in the words of the specification, to be compared
with the embedded code. -/

/-- Spec's fertilizer table: Organic Manure +0.08, Compost +0.07,
Bio-fertilizer +0.06, Green Manure +0.05, Reduced Chemical +0.02,
else +0. -/
def fertilizerBonus (s : String) : ℚ :=
  if s = "Organic Manure" then 8/100
  else if s = "Compost" then 7/100
  else if s = "Bio-fertilizer" then 6/100
  else if s = "Green Manure" then 5/100
  else if s = "Reduced Chemical" then 2/100
  else 0

/-- Spec's irrigation table: Rainwater Harvesting +0.06, Drip
Irrigation +0.05, Alternate Wetting/Drying +0.04, Sprinkler +0.03,
else +0. -/
def irrigationBonus (s : String) : ℚ :=
  if s = "Rainwater Harvesting" then 6/100
  else if s = "Drip Irrigation" then 5/100
  else if s = "Alternate Wetting/Drying" then 4/100
  else if s = "Sprinkler" then 3/100
  else 0

/-- Spec's seed-type table: Drought Resistant +0.04, Organic Seeds
+0.03, High Yield Variety +0.02, else +0. -/
def seedTypeBonus (s : String) : ℚ :=
  if s = "Drought Resistant" then 4/100
  else if s = "Organic Seeds" then 3/100
  else if s = "High Yield Variety" then 2/100
  else 0

/-- Spec's soil-health table: Excellent +0.06, Good +0.04, Average
+0.02, any other value −0.02. -/
def soilHealthBonus (s : String) : ℚ :=
  if s = "Excellent" then 6/100
  else if s = "Good" then 4/100
  else if s = "Average" then 2/100
  else -(2/100)

/-- Spec's health classification with inclusive lower bounds:
ndvi ≥ 0.80 → Excellent; ndvi ≥ 0.65 → Good; ndvi ≥ 0.45 → Moderate;
else Poor. -/
def classifyHealth (x : ℚ) : String :=
  if x ≥ 80/100 then "Excellent"
  else if x ≥ 65/100 then "Good"
  else if x ≥ 45/100 then "Moderate"
  else "Poor"

/-! ### Helper lemmas -/

lemma round_le_round_of_le {x y : ℚ} (h : x ≤ y) : round x ≤ round y := by
  rw [round_eq, round_eq]
  exact Int.floor_le_floor (by linarith)

lemma roundTo_le_roundTo (d : ℕ) {x y : ℚ} (h : x ≤ y) :
    roundTo d x ≤ roundTo d y := by
  have hp : (0:ℚ) ≤ 10 ^ d := by positivity
  have hm : x * 10 ^ d ≤ y * 10 ^ d := by nlinarith
  unfold roundTo
  gcongr
  exact_mod_cast round_le_round_of_le hm

lemma currentNDVI_lb (d : FarmerData) (r : Rand) : 1/10 ≤ currentNDVI d r :=
  le_max_left _ _

lemma currentNDVI_ub (d : FarmerData) (r : Rand) : currentNDVI d r ≤ 95/100 :=
  max_le (by norm_num) (min_le_left _ _)

lemma verify_isVerified (d : FarmerData) (r : Rand) (now : String) :
    (verifySatelliteData d r now).isVerified =
      (decide (currentNDVI d r ≥ 65/100) && decide (areaAccuracy d r ≥ 90)) :=
  rfl

lemma verify_confidence (d : FarmerData) (r : Rand) (now : String) :
    (verifySatelliteData d r now).confidence =
      round (ndviConfidence d r + areaConfidence d r) :=
  rfl

lemma verify_ndvi_value (d : FarmerData) (r : Rand) (now : String) :
    (verifySatelliteData d r now).ndviData.value = roundTo 3 (currentNDVI d r) :=
  rfl

lemma verify_healthStatus (d : FarmerData) (r : Rand) (now : String) :
    (verifySatelliteData d r now).vegetationAnalysis.healthStatus =
      (if currentNDVI d r ≥ 80/100 then "Excellent"
       else if currentNDVI d r ≥ 65/100 then "Good"
       else if currentNDVI d r ≥ 45/100 then "Moderate"
       else "Poor") :=
  rfl

lemma areaAccuracy_of_pos (d : FarmerData) (r : Rand) (hA : 0 < d.landArea) :
    areaAccuracy d r = min 100 ((1 - |accuracyFactor r - 1|) * 100) := by
  unfold areaAccuracy satelliteArea
  rw [show d.landArea * accuracyFactor r - d.landArea
        = d.landArea * (accuracyFactor r - 1) by ring,
      abs_mul, abs_of_pos hA, mul_div_cancel_left₀ _ hA.ne']

lemma areaAccuracy_bounds (d : FarmerData) (r : Rand) (hA : 0 < d.landArea)
    (h0 : 0 ≤ r.areaFactor) (h1 : r.areaFactor ≤ 1) :
    95 ≤ areaAccuracy d r ∧ areaAccuracy d r ≤ 100 := by
  rw [areaAccuracy_of_pos d r hA]
  have hf : |accuracyFactor r - 1| ≤ 5/100 := by
    unfold accuracyFactor
    rw [abs_le]
    constructor <;> nlinarith
  have h0f : 0 ≤ |accuracyFactor r - 1| := abs_nonneg _
  refine ⟨le_min (by norm_num) (by nlinarith), min_le_left _ _⟩

lemma roundTo_eq_of_mul_eq (k : ℕ) (x : ℚ) (n : ℕ) (h : x * 10 ^ k = (n : ℚ)) :
    roundTo k x = (n : ℚ) / 10 ^ k := by
  unfold roundTo
  rw [h, round_natCast]
  norm_num

lemma roundTo_three_low : roundTo 3 (1/10 : ℚ) = 1/10 := by
  have h : ((1/10 : ℚ) * 10 ^ 3) = ((100 : ℕ) : ℚ) := by norm_num
  unfold roundTo
  rw [h, round_natCast]
  norm_num

lemma roundTo_three_high : roundTo 3 (95/100 : ℚ) = 95/100 := by
  have h : ((95/100 : ℚ) * 10 ^ 3) = ((950 : ℕ) : ℚ) := by norm_num
  unfold roundTo
  rw [h, round_natCast]
  norm_num

lemma fertilizerSwitch_eq (s : String) : fertilizerSwitch s = fertilizerBonus s := by
  unfold fertilizerSwitch fertilizerBonus
  split <;> simp_all

lemma irrigationSwitch_eq (s : String) : irrigationSwitch s = irrigationBonus s := by
  unfold irrigationSwitch irrigationBonus
  split <;> simp_all

lemma seedTypeSwitch_eq (s : String) : seedTypeSwitch s = seedTypeBonus s := by
  unfold seedTypeSwitch seedTypeBonus
  split <;> simp_all

lemma soilHealthSwitch_eq (s : String) : soilHealthSwitch s = soilHealthBonus s := by
  unfold soilHealthSwitch soilHealthBonus
  split <;> simp_all

lemma currentNDVI_update_practices (d : FarmerData) (p : Practices) (r : Rand) :
    currentNDVI { d with practices := p } r
      = max (1/10) (min (95/100)
          ((cropConfig d.cropType).1 + calculatePracticeBonus p
            + (r.seasonal - 1/2) * (1/10))) :=
  rfl

/-! ### Concrete inputs used by witnesses and counterexamples -/

/-- An input with `landArea = 0` and only fallback practice values. -/
def zeroAreaInput : FarmerData :=
  { cropType := "Rice", landArea := 0, location := "Field A"
    practices :=
      { fertilizer := "Urea", irrigation := "Canal"
        seedType := "Local", soilHealth := "Poor" } }

/-- All five randomness draws fixed at `1/2` (seasonal noise `0`,
area factor `1.0`). -/
def halfRand : Rand :=
  { seasonal := 1/2, previous := 1/2, areaFactor := 1/2
    sourcePick := 1/2, cloud := 1/2 }

/-- The spec's own example scenario: Agroforestry with maximal practice
bonuses, so the NDVI clamps at `0.95`. -/
def overshootInput : FarmerData :=
  { cropType := "Agroforestry", landArea := 10, location := "Field C"
    practices :=
      { fertilizer := "Organic Manure", irrigation := "Drip Irrigation"
        seedType := "Organic Seeds", soilHealth := "Excellent" } }

/-- An input whose crop type is not in the baseline table. -/
def unknownCropInput : FarmerData :=
  { cropType := "Banana", landArea := 5, location := "Field B"
    practices :=
      { fertilizer := "Compost", irrigation := "Sprinkler"
        seedType := "Organic Seeds", soilHealth := "Good" } }

/-- A fixed formatting environment. -/
def constEnv : FormatEnv :=
  { numStr := fun _ => "n", intStr := fun _ => "i", dateLocale := fun _ => "d" }

/-! ### Claims -/

/-- C1: for every input and randomness, the returned result has
`isVerified = true` iff the computed (pre-rounding) NDVI is ≥ 0.65 and
the computed area accuracy is ≥ 90. -/
theorem C1_isVerified_iff (d : FarmerData) (r : Rand) (now : String) :
    (verifySatelliteData d r now).isVerified = true ↔
      currentNDVI d r ≥ 65/100 ∧ areaAccuracy d r ≥ 90 := by
  rw [verify_isVerified]
  simp

/-- C3: for every input and every value of the injected randomness, the
NDVI value in the returned result equals
`clamp(baseline + practice bonus + seasonal noise, 0.10, 0.95)` rounded
to 3 decimals, and lies in `[0.10, 0.95]`. -/
theorem C3_ndvi_clamped_rounded (d : FarmerData) (r : Rand) (now : String) :
    (verifySatelliteData d r now).ndviData.value
        = roundTo 3 (max (1/10) (min (95/100)
            ((cropConfig d.cropType).1 + calculatePracticeBonus d.practices
              + (r.seasonal - 1/2) * (1/10))))
      ∧ 1/10 ≤ (verifySatelliteData d r now).ndviData.value
      ∧ (verifySatelliteData d r now).ndviData.value ≤ 95/100 := by
  refine ⟨verify_ndvi_value d r now, ?_, ?_⟩
  · rw [verify_ndvi_value, ← roundTo_three_low]
    exact roundTo_le_roundTo 3 (currentNDVI_lb d r)
  · rw [verify_ndvi_value, ← roundTo_three_high]
    exact roundTo_le_roundTo 3 (currentNDVI_ub d r)

/-- C5: for every practice set, the practice bonus equals the sum of
the four independent per-category lookups of the specification. -/
theorem C5_bonus_is_sum_of_lookups (p : Practices) :
    calculatePracticeBonus p =
      fertilizerBonus p.fertilizer + irrigationBonus p.irrigation
        + seedTypeBonus p.seedType + soilHealthBonus p.soilHealth := by
  simp only [calculatePracticeBonus, fertilizerSwitch_eq, irrigationSwitch_eq,
    seedTypeSwitch_eq, soilHealthSwitch_eq]
  ring

/-- C6: the health status of the result is the classification of the
computed NDVI with inclusive lower bounds; NDVI exactly 0.65 classifies
as "Good" and exactly 0.80 as "Excellent". -/
theorem C6_health_status (d : FarmerData) (r : Rand) (now : String) :
    (verifySatelliteData d r now).vegetationAnalysis.healthStatus
        = classifyHealth (currentNDVI d r)
      ∧ classifyHealth (65/100) = "Good"
      ∧ classifyHealth (80/100) = "Excellent" := by
  refine ⟨?_, by norm_num [classifyHealth], by norm_num [classifyHealth]⟩
  rw [verify_healthStatus]
  rfl

/-- C7: for fixed randomness, changing only the soil-health field from
"Poor" to "Excellent" does not decrease the NDVI value of the result. -/
theorem C7_soil_health_monotone (d : FarmerData) (r : Rand) (now : String) :
    (verifySatelliteData
        { d with practices := { d.practices with soilHealth := "Poor" } }
        r now).ndviData.value
      ≤ (verifySatelliteData
        { d with practices := { d.practices with soilHealth := "Excellent" } }
        r now).ndviData.value := by
  rw [verify_ndvi_value, verify_ndvi_value]
  apply roundTo_le_roundTo
  rw [currentNDVI_update_practices, currentNDVI_update_practices]
  have hb : calculatePracticeBonus { d.practices with soilHealth := "Poor" }
      ≤ calculatePracticeBonus { d.practices with soilHealth := "Excellent" } := by
    simp only [calculatePracticeBonus]
    have h1 : soilHealthSwitch "Poor" = -(2/100) := rfl
    have h2 : soilHealthSwitch "Excellent" = 6/100 := rfl
    simp only [h1, h2]
    linarith
  exact max_le_max le_rfl (min_le_min le_rfl (by linarith))

lemma currentNDVI_zeroAreaInput : currentNDVI zeroAreaInput halfRand = 73/100 := by
  unfold currentNDVI
  have hc : (cropConfig zeroAreaInput.cropType).1 = 75/100 := rfl
  have hb : calculatePracticeBonus zeroAreaInput.practices = -(2/100) := by
    simp only [calculatePracticeBonus]
    rw [show fertilizerSwitch zeroAreaInput.practices.fertilizer = 0 from rfl,
      show irrigationSwitch zeroAreaInput.practices.irrigation = 0 from rfl,
      show seedTypeSwitch zeroAreaInput.practices.seedType = 0 from rfl,
      show soilHealthSwitch zeroAreaInput.practices.soilHealth = -(2/100) from rfl]
    norm_num
  have hs : halfRand.seasonal = 1/2 := rfl
  rw [hc, hb, hs,
    show (75/100 : ℚ) + -(2/100) + ((1/2 : ℚ) - 1/2) * (1/10) = 73/100 by norm_num,
    min_eq_right (by norm_num : (73/100 : ℚ) ≤ 95/100),
    max_eq_right (by norm_num : (1/10 : ℚ) ≤ 73/100)]

lemma currentNDVI_overshootInput : currentNDVI overshootInput halfRand = 95/100 := by
  unfold currentNDVI
  have hc : (cropConfig overshootInput.cropType).1 = 85/100 := rfl
  have hb : calculatePracticeBonus overshootInput.practices = 22/100 := by
    simp only [calculatePracticeBonus]
    rw [show fertilizerSwitch overshootInput.practices.fertilizer = 8/100 from rfl,
      show irrigationSwitch overshootInput.practices.irrigation = 5/100 from rfl,
      show seedTypeSwitch overshootInput.practices.seedType = 3/100 from rfl,
      show soilHealthSwitch overshootInput.practices.soilHealth = 6/100 from rfl]
    norm_num
  have hs : halfRand.seasonal = 1/2 := rfl
  rw [hc, hb, hs,
    show (85/100 : ℚ) + 22/100 + ((1/2 : ℚ) - 1/2) * (1/10) = 107/100 by norm_num,
    min_eq_left (by norm_num : (95/100 : ℚ) ≤ 107/100),
    max_eq_right (by norm_num : (1/10 : ℚ) ≤ 95/100)]

lemma areaAccuracy_overshootInput : areaAccuracy overshootInput halfRand = 100 := by
  unfold areaAccuracy satelliteArea accuracyFactor
  have hA : overshootInput.landArea = 10 := rfl
  have hf : halfRand.areaFactor = 1/2 := rfl
  rw [hA, hf,
    show (10 : ℚ) * (95/100 + (1/2) * (10/100)) - 10 = 0 by norm_num,
    abs_zero]
  norm_num

/-- C2: the source performs no land-area validation: at `landArea = 0`
the call still returns a full result (the spec instead requires an
`InvalidInput` failure for non-positive land area; in JavaScript the
division `|sat - reported| / reported` then yields `NaN` area accuracy
and confidence). -/
theorem C2_no_failure_on_zero_area :
    (verifySatelliteData zeroAreaInput halfRand "2026-01-01").ndviData.value
        = 73/100
      ∧ (verifySatelliteData zeroAreaInput halfRand
          "2026-01-01").landAreaVerification.reportedArea = 0 := by
  refine ⟨?_, rfl⟩
  rw [verify_ndvi_value, currentNDVI_zeroAreaInput,
    roundTo_eq_of_mul_eq 3 (73/100) 730 (by norm_num)]
  norm_num

/-- C4 as stated is false: the confidence can exceed 100.  At the
spec's own Agroforestry example with zero seasonal noise and exact
area detection, the NDVI clamps to 0.95, the area accuracy is 100, and
`round(min(100, (0.95/0.85)·60) + 100·0.4) = round(1820/17) = 107`. -/
theorem C4_counterexample_confidence_107 :
    (verifySatelliteData overshootInput halfRand "2026-01-01").confidence = 107
      ∧ ¬((verifySatelliteData overshootInput halfRand
            "2026-01-01").confidence ≤ 100) := by
  have hsum : ndviConfidence overshootInput halfRand
      + areaConfidence overshootInput halfRand = 1820/17 := by
    unfold ndviConfidence areaConfidence
    rw [currentNDVI_overshootInput, areaAccuracy_overshootInput,
      show (95/100 : ℚ) / (85/100) * 60 = 1140/17 by norm_num,
      min_eq_right (by norm_num : (1140/17 : ℚ) ≤ 100)]
    norm_num
  have hconf : (verifySatelliteData overshootInput halfRand
      "2026-01-01").confidence = 107 := by
    rw [verify_confidence, hsum, round_eq,
      show (1820/17 : ℚ) + 1/2 = 3657/34 by norm_num]
    rw [Int.floor_eq_iff]
    constructor
    · push_cast
      norm_num
    · push_cast
      norm_num
  exact ⟨hconf, by rw [hconf]; norm_num⟩

/-- C4 amended: for every input with positive land area and area-factor
randomness in `[0, 1]`, the confidence equals
`round(min(100, (ndvi/0.85)·60) + area_accuracy·0.4)` and is an integer
in `[0, 107]`; the upper end exceeds the claimed bound of 100 because
the sum of the two components is not clamped. -/
theorem C4_confidence_formula_and_range (d : FarmerData) (r : Rand) (now : String)
    (hA : 0 < d.landArea) (h0 : 0 ≤ r.areaFactor) (h1 : r.areaFactor ≤ 1) :
    (verifySatelliteData d r now).confidence
        = round (ndviConfidence d r + areaConfidence d r)
      ∧ 0 ≤ (verifySatelliteData d r now).confidence
      ∧ (verifySatelliteData d r now).confidence ≤ 107 := by
  obtain ⟨ha95, ha100⟩ := areaAccuracy_bounds d r hA h0 h1
  have hn1 : 1/10 ≤ currentNDVI d r := currentNDVI_lb d r
  have hn2 : currentNDVI d r ≤ 95/100 := currentNDVI_ub d r
  have hc1 : 0 ≤ ndviConfidence d r := by
    unfold ndviConfidence
    exact le_min (by norm_num) (by nlinarith)
  have hc2 : ndviConfidence d r ≤ 1140/17 := by
    unfold ndviConfidence
    exact (min_le_right _ _).trans (by nlinarith)
  have hac1 : 38 ≤ areaConfidence d r := by
    unfold areaConfidence
    nlinarith
  have hac2 : areaConfidence d r ≤ 40 := by
    unfold areaConfidence
    nlinarith
  refine ⟨verify_confidence d r now, ?_, ?_⟩
  · rw [verify_confidence]
    have hq : (0:ℚ) < ((round (ndviConfidence d r + areaConfidence d r) : ℤ) : ℚ) := by
      have hlt := sub_half_lt_round (ndviConfidence d r + areaConfidence d r)
      linarith
    have : (0:ℤ) < round (ndviConfidence d r + areaConfidence d r) := by
      exact_mod_cast hq
    omega
  · rw [verify_confidence]
    have hq : ((round (ndviConfidence d r + areaConfidence d r) : ℤ) : ℚ) < 108 := by
      have hle := round_le_add_half (ndviConfidence d r + areaConfidence d r)
      linarith
    have : round (ndviConfidence d r + areaConfidence d r) < 108 := by
      exact_mod_cast hq
    omega

/-- Witness for the amended C4 at the Agroforestry example. -/
theorem C4_confidence_witness :
    (0:ℚ) < overshootInput.landArea
      ∧ (0:ℚ) ≤ halfRand.areaFactor ∧ halfRand.areaFactor ≤ 1
      ∧ ((verifySatelliteData overshootInput halfRand "2026-01-01").confidence
            = round (ndviConfidence overshootInput halfRand
                + areaConfidence overshootInput halfRand)
          ∧ 0 ≤ (verifySatelliteData overshootInput halfRand "2026-01-01").confidence
          ∧ (verifySatelliteData overshootInput halfRand "2026-01-01").confidence ≤ 107) :=
  ⟨by norm_num [overshootInput], by norm_num [halfRand], by norm_num [halfRand],
    C4_confidence_formula_and_range overshootInput halfRand "2026-01-01"
      (by norm_num [overshootInput]) (by norm_num [halfRand]) (by norm_num [halfRand])⟩

/-- C8: an unknown crop type resolves to the same baseline pair as the
default crop "Rice", and hence to the same computed NDVI, for fixed
randomness. -/
theorem C8_unknown_crop_fallback (d : FarmerData) (r : Rand)
    (h : CROP_NDVI_BASELINE d.cropType = none) :
    cropConfig d.cropType = cropConfig "Rice"
      ∧ currentNDVI d r = currentNDVI { d with cropType := "Rice" } r := by
  have hc : cropConfig d.cropType = cropConfig "Rice" := by
    unfold cropConfig
    rw [h]
    rfl
  refine ⟨hc, ?_⟩
  unfold currentNDVI
  rw [hc]

/-- Witness for C8 at the unknown crop type "Banana". -/
theorem C8_unknown_crop_witness :
    CROP_NDVI_BASELINE unknownCropInput.cropType = none
      ∧ (cropConfig unknownCropInput.cropType = cropConfig "Rice"
          ∧ currentNDVI unknownCropInput halfRand
              = currentNDVI { unknownCropInput with cropType := "Rice" } halfRand) :=
  ⟨rfl, C8_unknown_crop_fallback unknownCropInput halfRand rfl⟩

/-- C9: with positive land area and an accuracy factor in [0.95, 1.05],
the computed area accuracy lies in [95, 100], so the area check always
passes and the verdict is decided by the NDVI threshold alone. -/
theorem C9_verdict_by_ndvi_alone (d : FarmerData) (r : Rand) (now : String)
    (hA : 0 < d.landArea) (h0 : 0 ≤ r.areaFactor) (h1 : r.areaFactor ≤ 1) :
    95 ≤ areaAccuracy d r ∧ areaAccuracy d r ≤ 100
      ∧ ((verifySatelliteData d r now).isVerified = true ↔
          currentNDVI d r ≥ 65/100) := by
  obtain ⟨h95, h100⟩ := areaAccuracy_bounds d r hA h0 h1
  refine ⟨h95, h100, ?_⟩
  rw [verify_isVerified]
  simp only [Bool.and_eq_true, decide_eq_true_eq]
  constructor
  · rintro ⟨hh, _⟩
    exact hh
  · intro hh
    exact ⟨hh, by linarith⟩

/-- Witness for C9 at a concrete input. -/
theorem C9_verdict_witness :
    (0:ℚ) < unknownCropInput.landArea
      ∧ (0:ℚ) ≤ halfRand.areaFactor ∧ halfRand.areaFactor ≤ 1
      ∧ (95 ≤ areaAccuracy unknownCropInput halfRand
          ∧ areaAccuracy unknownCropInput halfRand ≤ 100
          ∧ ((verifySatelliteData unknownCropInput halfRand
                "2026-01-01").isVerified = true ↔
              currentNDVI unknownCropInput halfRand ≥ 65/100)) :=
  ⟨by norm_num [unknownCropInput], by norm_num [halfRand], by norm_num [halfRand],
    C9_verdict_by_ndvi_alone unknownCropInput halfRand "2026-01-01"
      (by norm_num [unknownCropInput]) (by norm_num [halfRand]) (by norm_num [halfRand])⟩

/-- C10: the summary is a pure function of its result argument: with
the ambient formatting environment fixed, its text is fully determined
by the fields of the result (the input is a value and is not altered). -/
theorem C10_summary_pure (env : FormatEnv) (r₁ r₂ : SatelliteVerificationResult)
    (h1 : r₁.isVerified = r₂.isVerified)
    (h2 : r₁.confidence = r₂.confidence)
    (h3 : r₁.source = r₂.source)
    (h4 : r₁.ndviData.value = r₂.ndviData.value)
    (h5 : r₁.ndviData.change = r₂.ndviData.change)
    (h6 : r₁.ndviData.healthScore = r₂.ndviData.healthScore)
    (h7 : r₁.vegetationAnalysis.healthStatus = r₂.vegetationAnalysis.healthStatus)
    (h8 : r₁.vegetationAnalysis.cropType = r₂.vegetationAnalysis.cropType)
    (h9 : r₁.vegetationAnalysis.sequestrationRate
        = r₂.vegetationAnalysis.sequestrationRate)
    (h10 : r₁.landAreaVerification.reportedArea
        = r₂.landAreaVerification.reportedArea)
    (h11 : r₁.landAreaVerification.satelliteDetectedArea
        = r₂.landAreaVerification.satelliteDetectedArea)
    (h12 : r₁.landAreaVerification.accuracy = r₂.landAreaVerification.accuracy)
    (h13 : r₁.imageResolution = r₂.imageResolution)
    (h14 : r₁.cloudCoverage = r₂.cloudCoverage)
    (h15 : r₁.verificationDate = r₂.verificationDate) :
    getVerificationSummary env r₁ = getVerificationSummary env r₂ := by
  simp only [getVerificationSummary]
  rw [h1, h2, h3, h4, h5, h6, h7, h8, h9, h10, h11, h12, h13, h14, h15]

/-- Witness for C10: two calls on the same result yield the same text. -/
theorem C10_summary_witness :
    getVerificationSummary constEnv
        (verifySatelliteData unknownCropInput halfRand "2026-01-01")
      = getVerificationSummary constEnv
        (verifySatelliteData unknownCropInput halfRand "2026-01-01") :=
  C10_summary_pure constEnv _ _ rfl rfl rfl rfl rfl rfl rfl rfl rfl rfl rfl rfl
    rfl rfl rfl

end GreenMRV
